import Mathlib

/-!
Shallow embedding of the ClassSchedule application (src/app.py,
src/data_manager.py): the JSON storage layer, the typed record
collections, and the Flask route handlers, modelled as pure functions.
File I/O is modelled by a map from filenames to file states; `datetime.now()`
is passed in as an explicit `now : String` argument.
-/

namespace ClassSchedule

/-- JSON values as produced/consumed by python's `json` module, restricted to
the JSON-representable fragment (string object keys, integer numbers as used
by the app). -/
inductive Json where
  | null
  | bool (b : Bool)
  | num (n : Int)
  | str (s : String)
  | arr (xs : List Json)
  | obj (fields : List (String × Json))

/-- State of one backing file: absent (`FileNotFoundError` on open), present
but not parseable as JSON (`json.JSONDecodeError`), or holding a parsed JSON
value. -/
inductive JsonFile where
  | absent
  | corrupt
  | content (j : Json)

/-- The filesystem: one `JsonFile` state per filename. -/
def FS : Type := String → JsonFile

/-- `DataManager.read_json_file`: load the JSON in the file; on
`FileNotFoundError` or `json.JSONDecodeError` return the empty list. -/
def read_json_file (fs : FS) (filename : String) : Json :=
  match fs filename with
  | .content j => j
  | .absent => .arr []
  | .corrupt => .arr []

/-- `DataManager.write_json_file`: overwrite the file with the serialized
data (`json.dump`, `indent=4`). -/
def write_json_file (fs : FS) (filename : String) (data : Json) : FS :=
  fun n => if n = filename then .content data else fs n

/-- A user record. The two seeded defaults carry no `created_at`; records
made by `add_student` do, hence the `Option`. -/
structure User where
  id : Nat
  username : String
  password : String
  role : String
  name : String
  created_at : Option String
deriving Repr, DecidableEq

/-- A class-schedule record (`add_class`). -/
structure ClassRec where
  id : Nat
  class_name : String
  room : String
  time : String
  day : String
  teacher : String
  created_at : String
deriving Repr, DecidableEq

/-- An attendance record (`mark_attendance`). -/
structure AttendanceRec where
  id : Nat
  student_name : String
  class_name : String
  date : String
  status : String
  recorded_at : String
deriving Repr, DecidableEq

/-- An assignment record (`add_assignment`). -/
structure AssignmentRec where
  id : Nat
  title : String
  description : String
  due_date : String
  link : String
  created_at : String
deriving Repr, DecidableEq

/-- A calendar-event record (`add_event`). -/
structure EventRec where
  id : Nat
  event_name : String
  event_date : String
  description : String
  created_at : String
deriving Repr, DecidableEq

/-- `DataManager.validate_user`: linear scan; return the first user whose
username and password both match, else `None`. -/
def validate_user (users : List User) (username password : String) : Option User :=
  users.find? (fun u => u.username == username && u.password == password)

/-- `DataManager.get_user_by_id`: return the first user with the given id,
else `None`. -/
def get_user_by_id (users : List User) (user_id : Nat) : Option User :=
  users.find? (fun u => u.id == user_id)

/-- `DataManager.add_class`: build the new record with
`id = len(schedules) + 1` and append it. -/
def add_class (schedules : List ClassRec)
    (class_name room time day teacher now : String) : List ClassRec :=
  schedules ++ [⟨schedules.length + 1, class_name, room, time, day, teacher, now⟩]

/-- `DataManager.mark_attendance`: build the new record with
`id = len(attendance) + 1` and append it. -/
def mark_attendance (attendance : List AttendanceRec)
    (student_name class_name date status now : String) : List AttendanceRec :=
  attendance ++ [⟨attendance.length + 1, student_name, class_name, date, status, now⟩]

/-- `DataManager.add_assignment`: build the new record with
`id = len(assignments) + 1` and append it. -/
def add_assignment (assignments : List AssignmentRec)
    (title description due_date link now : String) : List AssignmentRec :=
  assignments ++ [⟨assignments.length + 1, title, description, due_date, link, now⟩]

/-- `DataManager.add_event`: build the new record with
`id = len(events) + 1` and append it. -/
def add_event (events : List EventRec)
    (event_name event_date description now : String) : List EventRec :=
  events ++ [⟨events.length + 1, event_name, event_date, description, now⟩]

/-- `DataManager.add_student`: build the new student record with
`id = len(users) + 1`, role `'student'`, and append it. -/
def add_student (users : List User)
    (name username password now : String) : List User :=
  users ++ [⟨users.length + 1, username, password, "student", name, some now⟩]

/-- `DataManager.change_admin_password`: walk the users list, update the
password of the first user matching the id with role `'admin'`, then stop
(the python loop has a `break`). -/
def change_admin_password (users : List User) (user_id : Nat)
    (new_password : String) : List User :=
  match users with
  | [] => []
  | u :: rest =>
    if u.id = user_id ∧ u.role = "admin" then
      { u with password := new_password } :: rest
    else
      u :: change_admin_password rest user_id new_password

/-- `DataManager.username_exists`: linear scan for a matching username. -/
def username_exists (users : List User) (username : String) : Bool :=
  users.any (fun u => u.username == username)

/-- Insert an event into an already-descending list: it goes before the first
element whose `event_date` is strictly smaller, i.e. after every element with
a greater-or-equal key (this is where python's stable sort puts it). -/
def insertDesc (x : EventRec) : List EventRec → List EventRec
  | [] => [x]
  | y :: ys => if y.event_date < x.event_date then x :: y :: ys else y :: insertDesc x ys

/-- python's `sorted(events, key=lambda x: x.event_date, reverse=True)`:
a stable sort descending by the string `event_date`, realised as left-to-right
insertion. -/
def pySortedDesc (l : List EventRec) : List EventRec :=
  l.foldl (fun acc x => insertDesc x acc) []

/-- `DataManager.get_all_events`: read the events and sort them descending by
`event_date` (plain string comparison). -/
def get_all_events (events : List EventRec) : List EventRec :=
  pySortedDesc events

/-! ## Flask layer -/

/-- HTTP method of a request. -/
inductive Method where
  | GET
  | POST
deriving Repr, DecidableEq

/-- A handler's response: an HTTP redirect, or a rendered HTML page
identified by its template together with the error/success message
substituted into it (empty when none). -/
inductive Response where
  | redirect (target : String)
  | page (template : String) (message : String)
deriving Repr, DecidableEq

/-- The Flask session: the three keys the app ever stores. A key absent from
the session dict is `none`. -/
structure Session where
  user_id : Option Nat
  username : Option String
  role : Option String
deriving Repr, DecidableEq

/-- The persisted collections, one per JSON file. -/
structure DB where
  users : List User
  schedules : List ClassRec
  attendance : List AttendanceRec
  assignments : List AssignmentRec
  events : List EventRec
deriving Repr, DecidableEq

/-- Form fields of the login routes. -/
structure LoginForm where
  username : String
  password : String
deriving Repr, DecidableEq

/-- Form fields of the schedule route. -/
structure ClassForm where
  class_name : String
  room : String
  time : String
  day : String
  teacher : String
deriving Repr, DecidableEq

/-- Form fields of the attendance route. -/
structure AttendanceForm where
  student_name : String
  class_name : String
  date : String
  status : String
deriving Repr, DecidableEq

/-- Form fields of the assignments route. -/
structure AssignmentForm where
  title : String
  description : String
  due_date : String
  link : String
deriving Repr, DecidableEq

/-- Form fields of the calendar route. -/
structure EventForm where
  event_name : String
  event_date : String
  description : String
deriving Repr, DecidableEq

/-- Form fields of the admin-settings route. -/
structure SettingsForm where
  current_password : String
  new_password : String
  confirm_password : String
deriving Repr, DecidableEq

/-- Form fields of the register route. -/
structure RegisterForm where
  name : String
  username : String
  password : String
  confirm_password : String
  invite_code : String
deriving Repr, DecidableEq

/-- python `str.strip()`: drop leading and trailing whitespace. -/
def pyStrip (s : String) : String :=
  ⟨((s.data.dropWhile Char.isWhitespace).reverse.dropWhile Char.isWhitespace).reverse⟩

/-- Error shown by `/admin_login` on a failed login. -/
def adminLoginError : String :=
  "<div class=\"alert alert-danger\">Invalid admin credentials or not an admin account!</div>"

/-- Error shown by `/student_login` on a failed login. -/
def studentLoginError : String :=
  "<div class=\"alert alert-danger\">Invalid student credentials or not a student account!</div>"

/-- `app.admin_login`: on POST, validate the credentials; a user with role
`'admin'` gets the three session keys set and a redirect, anything else gets
the error page with the session untouched. GET renders the form. -/
def admin_login (db : DB) (sess : Session) (method : Method)
    (form : LoginForm) : Session × Response :=
  match method with
  | .POST =>
    match validate_user db.users form.username form.password with
    | some user =>
      if user.role = "admin" then
        ({ user_id := some user.id, username := some user.username,
           role := some user.role }, .redirect "/admin_dashboard")
      else
        (sess, .page "admin_login" adminLoginError)
    | none => (sess, .page "admin_login" adminLoginError)
  | .GET => (sess, .page "admin_login" "")

/-- `app.student_login`: same as `admin_login` with role `'student'` and the
student dashboard. -/
def student_login (db : DB) (sess : Session) (method : Method)
    (form : LoginForm) : Session × Response :=
  match method with
  | .POST =>
    match validate_user db.users form.username form.password with
    | some user =>
      if user.role = "student" then
        ({ user_id := some user.id, username := some user.username,
           role := some user.role }, .redirect "/student_dashboard")
      else
        (sess, .page "student_login" studentLoginError)
    | none => (sess, .page "student_login" studentLoginError)
  | .GET => (sess, .page "student_login" "")

/-- `app.login`: the body is a single unconditional redirect to `/`; the
method, form data and stored users are never consulted and the session is
never written. -/
def login (_db : DB) (sess : Session) (_method : Method)
    (_form : LoginForm) : Session × Response :=
  (sess, .redirect "/")

/-- `app.schedule`: no session → redirect to login; POST by an admin appends
a class; in every other case the collections are untouched; either way the
schedule listing page is rendered. -/
def schedule (db : DB) (sess : Session) (method : Method)
    (form : ClassForm) (now : String) : DB × Response :=
  if sess.user_id.isNone then (db, .redirect "/login")
  else
    let db' :=
      match method with
      | .POST =>
        if sess.role = some "admin" then
          { db with schedules := (add_class db.schedules form.class_name
              form.room form.time form.day form.teacher now) }
        else db
      | .GET => db
    (db', .page "schedule" "")

/-- `app.attendance`: same shape as `schedule` over the attendance
collection. -/
def attendance (db : DB) (sess : Session) (method : Method)
    (form : AttendanceForm) (now : String) : DB × Response :=
  if sess.user_id.isNone then (db, .redirect "/login")
  else
    let db' :=
      match method with
      | .POST =>
        if sess.role = some "admin" then
          { db with attendance := (mark_attendance db.attendance
              form.student_name form.class_name form.date form.status now) }
        else db
      | .GET => db
    (db', .page "attendance" "")

/-- `app.assignments`: same shape as `schedule` over the assignments
collection. -/
def assignments (db : DB) (sess : Session) (method : Method)
    (form : AssignmentForm) (now : String) : DB × Response :=
  if sess.user_id.isNone then (db, .redirect "/login")
  else
    let db' :=
      match method with
      | .POST =>
        if sess.role = some "admin" then
          { db with assignments := (add_assignment db.assignments
              form.title form.description form.due_date form.link now) }
        else db
      | .GET => db
    (db', .page "assignments" "")

/-- `app.calendar`: same shape as `schedule` over the events collection. -/
def calendar (db : DB) (sess : Session) (method : Method)
    (form : EventForm) (now : String) : DB × Response :=
  if sess.user_id.isNone then (db, .redirect "/login")
  else
    let db' :=
      match method with
      | .POST =>
        if sess.role = some "admin" then
          { db with events := (add_event db.events
              form.event_name form.event_date form.description now) }
        else db
      | .GET => db
    (db', .page "calendar" "")

/-- Message of `/admin_settings` when the current password is wrong (also
shown when the session user id matches no stored user). -/
def msgCurrentWrong : String :=
  "<div class=\"alert alert-danger\">Current password is wrong!</div>"

/-- Message of `/admin_settings` when the new passwords differ. -/
def msgNoMatch : String :=
  "<div class=\"alert alert-danger\">New passwords do not match!</div>"

/-- Message of `/admin_settings` when the new password is under 6 chars. -/
def msgTooShort : String :=
  "<div class=\"alert alert-danger\">New password must be at least 6 characters!</div>"

/-- Message of `/admin_settings` on success. -/
def msgSuccess : String :=
  "<div class=\"alert alert-success\">Password changed successfully!</div>"

/-- `app.admin_settings`: guarded by a session with role `'admin'`; on POST,
check the current password against the stored record, then the confirmation,
then the minimum length, and only when all pass rewrite the users collection
through `change_admin_password`. -/
def admin_settings (db : DB) (sess : Session) (method : Method)
    (form : SettingsForm) : DB × Response :=
  match sess.user_id with
  | none => (db, .redirect "/login")
  | some uid =>
    if sess.role ≠ some "admin" then (db, .redirect "/login")
    else
      match method with
      | .GET => (db, .page "admin_settings" "")
      | .POST =>
        match get_user_by_id db.users uid with
        | none => (db, .page "admin_settings" msgCurrentWrong)
        | some admin_user =>
          if admin_user.password ≠ form.current_password then
            (db, .page "admin_settings" msgCurrentWrong)
          else if form.new_password ≠ form.confirm_password then
            (db, .page "admin_settings" msgNoMatch)
          else if form.new_password.length < 6 then
            (db, .page "admin_settings" msgTooShort)
          else
            ({ db with users := change_admin_password db.users uid form.new_password },
             .page "admin_settings" msgSuccess)

/-- Error of `/register` for a too-short name. -/
def errName : String :=
  "<div class=\"alert alert-danger\">Name must be at least 2 characters long!</div>"

/-- Error of `/register` for a too-short username. -/
def errUsername : String :=
  "<div class=\"alert alert-danger\">Username must be at least 3 characters long!</div>"

/-- Error of `/register` for a too-short password. -/
def errPassword : String :=
  "<div class=\"alert alert-danger\">Password must be at least 6 characters long!</div>"

/-- Error of `/register` for a mismatched confirmation. -/
def errConfirm : String :=
  "<div class=\"alert alert-danger\">Passwords do not match!</div>"

/-- Error of `/register` for a wrong invite code. -/
def errInvite : String :=
  "<div class=\"alert alert-danger\">Invalid invite code! Ask your teacher for the correct code: <strong>JOIN2024</strong></div>"

/-- Error of `/register` for a duplicate username. -/
def errDuplicate : String :=
  "<div class=\"alert alert-danger\">Username already exists! Please choose a different one.</div>"

/-- Success message of `/register`. -/
def regSuccess : String :=
  "<div class=\"alert alert-success\"><strong>Account created successfully!</strong><br>You can now <a href=\"/student_login\" class=\"alert-link\">login here</a> with your username and password.</div>"

/-- `app.register`: on POST run the six checks in source order — stripped
name length, stripped username length, password length, confirmation,
invite code, duplicate username — returning each check's own error page, and
only when all pass call `add_student` with the stripped name and username. -/
def register (db : DB) (method : Method) (form : RegisterForm)
    (now : String) : DB × Response :=
  match method with
  | .GET => (db, .page "register" "")
  | .POST =>
    if (pyStrip form.name).length < 2 then (db, .page "register" errName)
    else if (pyStrip form.username).length < 3 then (db, .page "register" errUsername)
    else if form.password.length < 6 then (db, .page "register" errPassword)
    else if form.password ≠ form.confirm_password then (db, .page "register" errConfirm)
    else if form.invite_code ≠ "JOIN2024" then (db, .page "register" errInvite)
    else if username_exists db.users (pyStrip form.username) then
      (db, .page "register" errDuplicate)
    else
      ({ db with users := (add_student db.users (pyStrip form.name)
          (pyStrip form.username) form.password now) },
       .page "register" regSuccess)

/-- The two default accounts seeded by `DataManager.init_users`. -/
def seedUsers : List User :=
  [⟨1, "admin", "admin123", "admin", "Administrator", none⟩,
   ⟨2, "student1", "student123", "student", "John Doe", none⟩]

/-- A database holding exactly the seeded users and empty collections. -/
def seedDB : DB :=
  ⟨seedUsers, [], [], [], []⟩

/-- A fresh session with no keys set. -/
def emptySession : Session :=
  ⟨none, none, none⟩

/-! ## Theorems -/

/-- C1: every append operation — `add_class`, `mark_attendance`,
`add_assignment`, `add_event`, `add_student` — on a collection of N records
appends a single new record at the end whose `id` is N + 1. -/
theorem append_assigns_sequential_id :
    (∀ (schedules : List ClassRec) (a b c d e now : String),
      ∃ r, add_class schedules a b c d e now = schedules ++ [r] ∧
        r.id = schedules.length + 1)
    ∧ (∀ (attendance : List AttendanceRec) (a b c d now : String),
      ∃ r, mark_attendance attendance a b c d now = attendance ++ [r] ∧
        r.id = attendance.length + 1)
    ∧ (∀ (assignments : List AssignmentRec) (a b c d now : String),
      ∃ r, add_assignment assignments a b c d now = assignments ++ [r] ∧
        r.id = assignments.length + 1)
    ∧ (∀ (events : List EventRec) (a b c now : String),
      ∃ r, add_event events a b c now = events ++ [r] ∧
        r.id = events.length + 1)
    ∧ (∀ (users : List User) (a b c now : String),
      ∃ r, add_student users a b c now = users ++ [r] ∧
        r.id = users.length + 1) :=
  ⟨fun _ _ _ _ _ _ _ => ⟨_, rfl, rfl⟩,
   fun _ _ _ _ _ _ => ⟨_, rfl, rfl⟩,
   fun _ _ _ _ _ _ => ⟨_, rfl, rfl⟩,
   fun _ _ _ _ _ => ⟨_, rfl, rfl⟩,
   fun _ _ _ _ _ => ⟨_, rfl, rfl⟩⟩

/-- C6: reading a collection whose backing file is absent or holds
unparsable JSON yields the empty list instead of an error. -/
theorem read_missing_or_corrupt_is_empty (fs : FS) (filename : String)
    (h : fs filename = .absent ∨ fs filename = .corrupt) :
    read_json_file fs filename = .arr [] := by
  unfold read_json_file
  rcases h with h | h <;> rw [h]

/-- Witness for C6 at a concrete filesystem where every file is absent. -/
theorem read_missing_or_corrupt_is_empty_witness :
    read_json_file (fun _ => JsonFile.absent) "data/users.json" = .arr [] :=
  read_missing_or_corrupt_is_empty (fun _ => JsonFile.absent) "data/users.json"
    (Or.inl rfl)

/-- C7: writing a JSON-representable value to a collection file and reading
the same file back returns the value unchanged. -/
theorem write_then_read_roundtrip (fs : FS) (filename : String) (data : Json) :
    read_json_file (write_json_file fs filename data) filename = data := by
  simp [read_json_file, write_json_file]

/-- C10: `add_student` always appends a record with role `'student'`, and the
`/register` route either leaves the users collection unchanged or appends one
record whose role is `'student'` (never `'admin'`). -/
theorem register_creates_only_students :
    (∀ (users : List User) (name username password now : String),
      ∃ r, add_student users name username password now = users ++ [r] ∧
        r.role = "student")
    ∧ (∀ (db : DB) (method : Method) (form : RegisterForm) (now : String),
      (register db method form now).1.users = db.users ∨
      ∃ r, (register db method form now).1.users = db.users ++ [r] ∧
        r.role = "student" ∧ r.role ≠ "admin") := by
  constructor
  · intro users name username password now
    exact ⟨_, rfl, rfl⟩
  · intro db method form now
    cases method with
    | GET => exact Or.inl rfl
    | POST =>
      simp only [register]
      split_ifs <;> try exact Or.inl rfl
      refine Or.inr ⟨_, rfl, rfl, ?_⟩
      show ("student" : String) ≠ "admin"
      decide

/-- C2: the six `/register` checks run in source order — stripped name
length, stripped username length, password length, confirmation, invite
code, duplicate username — each failing check returns its own distinct
error with the database unchanged, and no user is persisted unless every
check passes. -/
theorem register_checks_in_order (db : DB) (form : RegisterForm) (now : String) :
    ((pyStrip form.name).length < 2 →
      register db .POST form now = (db, .page "register" errName))
    ∧ (¬ (pyStrip form.name).length < 2 →
        (pyStrip form.username).length < 3 →
      register db .POST form now = (db, .page "register" errUsername))
    ∧ (¬ (pyStrip form.name).length < 2 →
        ¬ (pyStrip form.username).length < 3 →
        form.password.length < 6 →
      register db .POST form now = (db, .page "register" errPassword))
    ∧ (¬ (pyStrip form.name).length < 2 →
        ¬ (pyStrip form.username).length < 3 →
        ¬ form.password.length < 6 →
        form.password ≠ form.confirm_password →
      register db .POST form now = (db, .page "register" errConfirm))
    ∧ (¬ (pyStrip form.name).length < 2 →
        ¬ (pyStrip form.username).length < 3 →
        ¬ form.password.length < 6 →
        form.password = form.confirm_password →
        form.invite_code ≠ "JOIN2024" →
      register db .POST form now = (db, .page "register" errInvite))
    ∧ (¬ (pyStrip form.name).length < 2 →
        ¬ (pyStrip form.username).length < 3 →
        ¬ form.password.length < 6 →
        form.password = form.confirm_password →
        form.invite_code = "JOIN2024" →
        username_exists db.users (pyStrip form.username) = true →
      register db .POST form now = (db, .page "register" errDuplicate))
    ∧ ((register db .POST form now).2 ≠ .page "register" regSuccess →
      (register db .POST form now).1 = db)
    ∧ [errName, errUsername, errPassword, errConfirm, errInvite,
        errDuplicate, regSuccess].Nodup := by
  refine ⟨?_, ?_, ?_, ?_, ?_, ?_, ?_, ?_⟩
  · intro h1
    simp [register, h1]
  · intro h1 h2
    simp [register, h1, h2]
  · intro h1 h2 h3
    simp [register, h1, h2, h3]
  · intro h1 h2 h3 h4
    simp [register, h1, h2, h3, h4]
  · intro h1 h2 h3 h4 h5
    have h4' : ¬ form.password ≠ form.confirm_password := fun hh => hh h4
    simp [register, h1, h2, h3, h4', h5]
  · intro h1 h2 h3 h4 h5 h6
    have h4' : ¬ form.password ≠ form.confirm_password := fun hh => hh h4
    simp [register, h1, h2, h3, h4', h5, h6]
  · intro hne
    simp only [register] at hne ⊢
    split_ifs at hne ⊢ <;> first | rfl | exact absurd rfl hne
  · decide

/-- Witness for C2 matching the spec's example: a wrong invite code returns
the invalid-invite-code error and persists nothing. -/
theorem register_checks_in_order_witness :
    register seedDB .POST ⟨"John Doe", "johnd", "secret123", "secret123", "WRONG"⟩ "t" =
      (seedDB, .page "register" errInvite) :=
  (register_checks_in_order seedDB
      ⟨"John Doe", "johnd", "secret123", "secret123", "WRONG"⟩ "t").2.2.2.2.1
    (by decide) (by decide) (by decide) (by decide) (by decide)

/-- Helper for C3: when a record matching both fields exists and every other
matching record equals it, the linear scan of `validate_user` returns it. -/
theorem validate_user_unique_match (users : List User) (username password : String)
    (r : User) (hmem : r ∈ users) (hu : r.username = username)
    (hp : r.password = password)
    (huniq : ∀ r' ∈ users, r'.username = username → r'.password = password → r' = r) :
    validate_user users username password = some r := by
  induction users with
  | nil => cases hmem
  | cons a as ih =>
    unfold validate_user
    rw [List.find?_cons]
    by_cases ha : a.username = username ∧ a.password = password
    · have : a = r := huniq a (List.mem_cons_self a as) ha.1 ha.2
      subst this
      simp [ha.1, ha.2]
    · have hpa : (a.username == username && a.password == password) = false := by
        rw [Bool.and_eq_false_iff]
        by_cases h1 : a.username = username
        · exact Or.inr (beq_eq_false_iff_ne.mpr (fun h2 => ha ⟨h1, h2⟩))
        · exact Or.inl (beq_eq_false_iff_ne.mpr h1)
      rw [hpa]
      rcases List.mem_cons.mp hmem with hra | hras
      · exact absurd ⟨hra ▸ hu, hra ▸ hp⟩ ha
      · exact ih hras (fun r' hr' => huniq r' (List.mem_cons_of_mem a hr'))

/-- C3 counterexample: with two distinct stored records sharing the same
username and password, the pair matches the second record, yet
`validate_user` does not return it (it returns the first). -/
theorem validate_user_counterexample :
    (⟨2, "alice", "pw123", "student", "Alice Two", none⟩ : User) ∈
      [(⟨1, "alice", "pw123", "student", "Alice One", none⟩ : User),
       ⟨2, "alice", "pw123", "student", "Alice Two", none⟩] ∧
    (⟨2, "alice", "pw123", "student", "Alice Two", none⟩ : User).username = "alice" ∧
    (⟨2, "alice", "pw123", "student", "Alice Two", none⟩ : User).password = "pw123" ∧
    validate_user
      [⟨1, "alice", "pw123", "student", "Alice One", none⟩,
       ⟨2, "alice", "pw123", "student", "Alice Two", none⟩] "alice" "pw123" ≠
      some ⟨2, "alice", "pw123", "student", "Alice Two", none⟩ := by
  decide

/-- Helper for C3: full characterization of the scan's `some` results:
`validate_user` returns `r` exactly when `r` matches both fields and sits at
a position before which no record matches. -/
theorem validate_user_eq_some_iff (users : List User) (username password : String)
    (r : User) :
    validate_user users username password = some r ↔
      r.username = username ∧ r.password = password ∧
      ∃ pre post, users = pre ++ r :: post ∧
        ∀ r' ∈ pre, ¬(r'.username = username ∧ r'.password = password) := by
  induction users with
  | nil =>
    constructor
    · intro h
      simp [validate_user] at h
    · rintro ⟨_, _, pre, post, heq, _⟩
      cases pre <;> simp at heq
  | cons a as ih =>
    by_cases ha : a.username = username ∧ a.password = password
    · have hpa : (a.username == username && a.password == password) = true := by
        simp [ha.1, ha.2]
      have hstep : validate_user (a :: as) username password = some a := by
        rw [validate_user, List.find?_cons, hpa]
      rw [hstep]
      constructor
      · intro h
        have har : a = r := by injection h
        subst har
        exact ⟨ha.1, ha.2, [], as, rfl, by simp⟩
      · rintro ⟨hu, hp, pre, post, heq, hpre⟩
        cases pre with
        | nil =>
          simp only [List.nil_append, List.cons.injEq] at heq
          exact congrArg some heq.1
        | cons b pre' =>
          simp only [List.cons_append, List.cons.injEq] at heq
          exact absurd (heq.1 ▸ ha) (hpre b (List.mem_cons_self b pre'))
    · have hpa : (a.username == username && a.password == password) = false := by
        rw [Bool.and_eq_false_iff]
        by_cases h1 : a.username = username
        · exact Or.inr (beq_eq_false_iff_ne.mpr (fun h2 => ha ⟨h1, h2⟩))
        · exact Or.inl (beq_eq_false_iff_ne.mpr h1)
      have hstep : validate_user (a :: as) username password =
          validate_user as username password := by
        rw [validate_user, List.find?_cons, hpa]
        rfl
      rw [hstep, ih]
      constructor
      · rintro ⟨hu, hp, pre, post, heq, hpre⟩
        refine ⟨hu, hp, a :: pre, post, by rw [heq]; rfl, ?_⟩
        intro r' hr'
        rcases List.mem_cons.mp hr' with h | h
        · exact h ▸ ha
        · exact hpre r' h
      · rintro ⟨hu, hp, pre, post, heq, hpre⟩
        cases pre with
        | nil =>
          simp only [List.nil_append, List.cons.injEq] at heq
          obtain ⟨har, _⟩ := heq
          subst har
          exact absurd ⟨hu, hp⟩ ha
        | cons b pre' =>
          simp only [List.cons_append, List.cons.injEq] at heq
          exact ⟨hu, hp, pre', post, heq.2,
            fun r' hr' => hpre r' (List.mem_cons_of_mem b hr')⟩

/-- C3 amended: `validate_user` returns `some r` exactly when `r` matches
both fields and no record before it matches — so with several matching
records it returns the first, and exactly that record whenever the matching
record is unique — and returns none exactly when no stored record matches
both fields. -/
theorem validate_user_first_match (users : List User) (username password : String) :
    (∀ r, validate_user users username password = some r ↔
      r.username = username ∧ r.password = password ∧
      ∃ pre post, users = pre ++ r :: post ∧
        ∀ r' ∈ pre, ¬(r'.username = username ∧ r'.password = password))
    ∧ (validate_user users username password = none ↔
      ∀ r ∈ users, ¬(r.username = username ∧ r.password = password))
    ∧ (∀ r, r ∈ users → r.username = username → r.password = password →
      (∀ r' ∈ users, r'.username = username → r'.password = password → r' = r) →
      validate_user users username password = some r) := by
  refine ⟨fun r => validate_user_eq_some_iff users username password r, ?_, ?_⟩
  · rw [validate_user, List.find?_eq_none]
    simp
  · intro r hmem hu hp huniq
    exact validate_user_unique_match users username password r hmem hu hp huniq

/-- Witness for C3's amended theorem: the unique match is returned on the
seeded users, a wrong password yields none, and on a collection holding two
records with identical credentials the first is returned. -/
theorem validate_user_first_match_witness :
    validate_user seedUsers "admin" "admin123" =
      some ⟨1, "admin", "admin123", "admin", "Administrator", none⟩ ∧
    validate_user seedUsers "admin" "wrongpw" = none ∧
    validate_user
      [⟨1, "alice", "pw123", "student", "Alice One", none⟩,
       ⟨2, "alice", "pw123", "student", "Alice Two", none⟩] "alice" "pw123" =
      some ⟨1, "alice", "pw123", "student", "Alice One", none⟩ :=
  ⟨(validate_user_first_match seedUsers "admin" "admin123").2.2
      ⟨1, "admin", "admin123", "admin", "Administrator", none⟩
      (by decide) rfl rfl (by decide),
   (validate_user_first_match seedUsers "admin" "wrongpw").2.1.mpr (by decide),
   ((validate_user_first_match
      [⟨1, "alice", "pw123", "student", "Alice One", none⟩,
       ⟨2, "alice", "pw123", "student", "Alice Two", none⟩] "alice" "pw123").1
      ⟨1, "alice", "pw123", "student", "Alice One", none⟩).mpr
     ⟨rfl, rfl, [], [⟨2, "alice", "pw123", "student", "Alice Two", none⟩],
      rfl, by decide⟩⟩

/-- C4 counterexample: a POST to `/login` with the seeded admin's valid
credentials performs no credential check and stores nothing in the session —
it returns an unconditional redirect to `/` with the session untouched. -/
theorem login_performs_no_credential_check :
    validate_user seedDB.users "admin" "admin123" =
      some ⟨1, "admin", "admin123", "admin", "Administrator", none⟩ ∧
    login seedDB emptySession .POST ⟨"admin", "admin123"⟩ =
      (emptySession, .redirect "/") ∧
    (login seedDB emptySession .POST ⟨"admin", "admin123"⟩).1.user_id = none ∧
    (login seedDB emptySession .POST ⟨"admin", "admin123"⟩).1.role = none := by
  decide

/-- C4 amended: POST `/admin_login` and POST `/student_login` check the
credentials and, on a match with the route's role, store `user_id`,
`username` and `role` in the session and redirect to the dashboard;
POST `/login` instead redirects to `/` unconditionally, checking nothing
and writing nothing to the session. -/
theorem login_routes_amended (db : DB) (sess : Session) (form : LoginForm) :
    (∀ u, validate_user db.users form.username form.password = some u →
      u.role = "admin" →
      admin_login db sess .POST form =
        ({ user_id := some u.id, username := some u.username,
           role := some u.role }, .redirect "/admin_dashboard"))
    ∧ (∀ u, validate_user db.users form.username form.password = some u →
      u.role = "student" →
      student_login db sess .POST form =
        ({ user_id := some u.id, username := some u.username,
           role := some u.role }, .redirect "/student_dashboard"))
    ∧ login db sess .POST form = (sess, .redirect "/") := by
  refine ⟨?_, ?_, rfl⟩
  · intro u hu hrole
    simp [admin_login, hu, hrole]
  · intro u hu hrole
    simp [student_login, hu, hrole]

/-- Witness for C4's amended theorem: the spec's seeded examples, admin and
student logins on the default accounts. -/
theorem login_routes_amended_witness :
    admin_login seedDB emptySession .POST ⟨"admin", "admin123"⟩ =
      (⟨some 1, some "admin", some "admin"⟩, .redirect "/admin_dashboard") ∧
    student_login seedDB emptySession .POST ⟨"student1", "student123"⟩ =
      (⟨some 2, some "student1", some "student"⟩, .redirect "/student_dashboard") :=
  ⟨(login_routes_amended seedDB emptySession ⟨"admin", "admin123"⟩).1
      ⟨1, "admin", "admin123", "admin", "Administrator", none⟩ (by decide) rfl,
   (login_routes_amended seedDB emptySession ⟨"student1", "student123"⟩).2.1
      ⟨2, "student1", "student123", "student", "John Doe", none⟩ (by decide) rfl⟩

/-- C5: a POST to `/schedule`, `/attendance`, `/assignments` or `/calendar`
with a session present but a role other than `'admin'` leaves every
collection unchanged and still renders the listing page — a silent no-op,
not a redirect or an error. -/
theorem non_admin_post_is_silent_noop (db : DB) (sess : Session)
    (cf : ClassForm) (af : AttendanceForm) (gf : AssignmentForm)
    (ef : EventForm) (now : String)
    (hs : sess.user_id ≠ none) (hr : sess.role ≠ some "admin") :
    schedule db sess .POST cf now = (db, .page "schedule" "")
    ∧ attendance db sess .POST af now = (db, .page "attendance" "")
    ∧ assignments db sess .POST gf now = (db, .page "assignments" "")
    ∧ calendar db sess .POST ef now = (db, .page "calendar" "") := by
  have h1 : sess.user_id.isNone = false := by
    cases h : sess.user_id with
    | none => exact absurd h hs
    | some _ => rfl
  refine ⟨?_, ?_, ?_, ?_⟩
  · simp [schedule, h1, hr]
  · simp [attendance, h1, hr]
  · simp [assignments, h1, hr]
  · simp [calendar, h1, hr]

/-- Witness for C5: a logged-in student POSTing a new class to `/schedule`
changes nothing and gets the listing page. -/
theorem non_admin_post_is_silent_noop_witness :
    schedule seedDB ⟨some 2, some "student1", some "student"⟩ .POST
      ⟨"Math", "101", "9am", "Mon", "Mr. X"⟩ "t" = (seedDB, .page "schedule" "") :=
  (non_admin_post_is_silent_noop seedDB ⟨some 2, some "student1", some "student"⟩
    ⟨"Math", "101", "9am", "Mon", "Mr. X"⟩ ⟨"a", "b", "c", "d"⟩
    ⟨"a", "b", "c", "d"⟩ ⟨"a", "b", "c"⟩ "t" (by decide) (by decide)).1

/-- Helper for C8: updating the password of the first admin record with the
given id is visible to a subsequent lookup by that id, provided the first
record with that id is the admin being updated. -/
theorem get_user_after_change_password (users : List User) (uid : Nat)
    (u : User) (np : String)
    (h : get_user_by_id users uid = some u) (hrole : u.role = "admin") :
    get_user_by_id (change_admin_password users uid np) uid =
      some { u with password := np } := by
  induction users with
  | nil => simp [get_user_by_id] at h
  | cons a as ih =>
    by_cases ha : a.id = uid
    · have hau : a = u := by
        have := h
        rw [get_user_by_id, List.find?_cons] at this
        simp [ha] at this
        exact this
      subst hau
      rw [change_admin_password]
      rw [if_pos ⟨ha, hrole⟩]
      rw [get_user_by_id, List.find?_cons]
      simp [ha]
    · have hfa0 : (a.id == uid) = false := beq_eq_false_iff_ne.mpr ha
      have htail : get_user_by_id as uid = some u := by
        have := h
        rw [get_user_by_id, List.find?_cons] at this
        rw [hfa0] at this
        exact this
      have hcond : ¬ (a.id = uid ∧ a.role = "admin") := fun hc => ha hc.1
      rw [change_admin_password, if_neg hcond]
      rw [get_user_by_id, List.find?_cons]
      have hfa : (a.id == uid) = false := by
        exact beq_eq_false_iff_ne.mpr ha
      rw [hfa]
      exact ih htail

/-- C8: for a POST to `/admin_settings` with an admin session whose id
resolves to a stored admin record, the three checks run in source order —
wrong current password, mismatched confirmation, new password under 6
characters — each failure leaving the users collection unchanged with its
own message, and when all pass the stored record's password becomes the new
password with the success message shown. -/
theorem admin_settings_password_change (db : DB) (sess : Session)
    (form : SettingsForm) (uid : Nat) (u : User)
    (hsid : sess.user_id = some uid) (hsrole : sess.role = some "admin")
    (hu : get_user_by_id db.users uid = some u) (hadmin : u.role = "admin") :
    (u.password ≠ form.current_password →
      admin_settings db sess .POST form = (db, .page "admin_settings" msgCurrentWrong))
    ∧ (u.password = form.current_password →
        form.new_password ≠ form.confirm_password →
      admin_settings db sess .POST form = (db, .page "admin_settings" msgNoMatch))
    ∧ (u.password = form.current_password →
        form.new_password = form.confirm_password →
        form.new_password.length < 6 →
      admin_settings db sess .POST form = (db, .page "admin_settings" msgTooShort))
    ∧ (u.password = form.current_password →
        form.new_password = form.confirm_password →
        ¬ form.new_password.length < 6 →
      (admin_settings db sess .POST form).2 = .page "admin_settings" msgSuccess
      ∧ (admin_settings db sess .POST form).1.users =
          change_admin_password db.users uid form.new_password
      ∧ get_user_by_id (admin_settings db sess .POST form).1.users uid =
          some { u with password := form.new_password }) := by
  refine ⟨?_, ?_, ?_, ?_⟩
  · intro hcur
    simp [admin_settings, hsid, hsrole, hu, hcur]
  · intro hcur hconf
    have hcur' : ¬ u.password ≠ form.current_password := fun hh => hh hcur
    simp [admin_settings, hsid, hsrole, hu, hcur', hconf]
  · intro hcur hconf hlen
    have hcur' : ¬ u.password ≠ form.current_password := fun hh => hh hcur
    have hconf' : ¬ form.new_password ≠ form.confirm_password := fun hh => hh hconf
    simp [admin_settings, hsid, hsrole, hu, hcur', hconf', hlen]
  · intro hcur hconf hlen
    have hcur' : ¬ u.password ≠ form.current_password := fun hh => hh hcur
    have hconf' : ¬ form.new_password ≠ form.confirm_password := fun hh => hh hconf
    have hres : admin_settings db sess .POST form =
        ({ db with users := change_admin_password db.users uid form.new_password },
         .page "admin_settings" msgSuccess) := by
      simp [admin_settings, hsid, hsrole, hu, hcur', hconf', hlen]
    rw [hres]
    exact ⟨rfl, rfl, get_user_after_change_password db.users uid u
      form.new_password hu hadmin⟩

/-- Witness for C8 on the seeded database: a wrong current password is
rejected without touching the users, and a valid change lands in the
stored record. -/
theorem admin_settings_password_change_witness :
    admin_settings seedDB ⟨some 1, some "admin", some "admin"⟩ .POST
      ⟨"nope", "newpass1", "newpass1"⟩ =
      (seedDB, .page "admin_settings" msgCurrentWrong) ∧
    get_user_by_id (admin_settings seedDB ⟨some 1, some "admin", some "admin"⟩ .POST
        ⟨"admin123", "newpass1", "newpass1"⟩).1.users 1 =
      some ⟨1, "admin", "newpass1", "admin", "Administrator", none⟩ :=
  ⟨(admin_settings_password_change seedDB ⟨some 1, some "admin", some "admin"⟩
      ⟨"nope", "newpass1", "newpass1"⟩ 1
      ⟨1, "admin", "admin123", "admin", "Administrator", none⟩
      rfl rfl (by decide) rfl).1 (by decide),
   ((admin_settings_password_change seedDB ⟨some 1, some "admin", some "admin"⟩
      ⟨"admin123", "newpass1", "newpass1"⟩ 1
      ⟨1, "admin", "admin123", "admin", "Administrator", none⟩
      rfl rfl (by decide) rfl).2.2.2 rfl rfl (by decide)).2.2⟩

/-- Helper for C9: inserting into a list is a permutation of consing. -/
theorem insertDesc_perm (x : EventRec) (l : List EventRec) :
    (insertDesc x l).Perm (x :: l) := by
  induction l with
  | nil => exact List.Perm.refl _
  | cons y ys ih =>
    rw [insertDesc]
    by_cases h : y.event_date < x.event_date
    · rw [if_pos h]
    · rw [if_neg h]
      exact ((ih.cons y).trans (List.Perm.swap x y ys))

/-- Helper for C9: the left fold of insertions permutes the accumulator
followed by the remaining input. -/
theorem foldl_insertDesc_perm (l : List EventRec) :
    ∀ acc : List EventRec,
      (l.foldl (fun a x => insertDesc x a) acc).Perm (acc ++ l) := by
  induction l with
  | nil => intro acc; simp
  | cons y ys ih =>
    intro acc
    rw [List.foldl_cons]
    have h1 := ih (insertDesc y acc)
    have h2 : (insertDesc y acc ++ ys).Perm ((y :: acc) ++ ys) :=
      (insertDesc_perm y acc).append_right ys
    have h3 : ((y :: acc) ++ ys).Perm (acc ++ y :: ys) := by
      simpa using List.perm_middle.symm
    exact (h1.trans h2).trans h3

/-- Helper for C9: inserting preserves descending sortedness by the
`event_date` string. -/
theorem insertDesc_pairwise (x : EventRec) (l : List EventRec)
    (h : l.Pairwise (fun a b => b.event_date ≤ a.event_date)) :
    (insertDesc x l).Pairwise (fun a b => b.event_date ≤ a.event_date) := by
  induction l with
  | nil => simp [insertDesc]
  | cons y ys ih =>
    rw [List.pairwise_cons] at h
    rw [insertDesc]
    by_cases hlt : y.event_date < x.event_date
    · rw [if_pos hlt]
      refine List.Pairwise.cons ?_ (List.Pairwise.cons h.1 h.2)
      intro z hz
      rcases List.mem_cons.mp hz with hz | hz
      · exact hz ▸ le_of_lt hlt
      · exact le_trans (h.1 z hz) (le_of_lt hlt)
    · rw [if_neg hlt]
      refine List.Pairwise.cons ?_ (ih h.2)
      intro z hz
      rcases List.mem_cons.mp ((insertDesc_perm x ys).mem_iff.mp hz) with hz | hz
      · exact hz ▸ le_of_not_lt hlt
      · exact h.1 z hz

/-- Helper for C9: the full insertion fold yields a descending list. -/
theorem foldl_insertDesc_pairwise (l : List EventRec) :
    ∀ acc : List EventRec,
      acc.Pairwise (fun a b => b.event_date ≤ a.event_date) →
      (l.foldl (fun a x => insertDesc x a) acc).Pairwise
        (fun a b => b.event_date ≤ a.event_date) := by
  induction l with
  | nil => intro acc hacc; simpa using hacc
  | cons y ys ih =>
    intro acc hacc
    rw [List.foldl_cons]
    exact ih (insertDesc y acc) (insertDesc_pairwise y acc hacc)

/-- C9: `get_all_events` returns a permutation of the stored events, sorted
descending by the raw `event_date` string; the closing conjunct shows the
comparison is lexicographic, not calendar-aware: the string "2024-9-01"
sorts above "2024-10-02" although it is the earlier date. -/
theorem get_all_events_sorted_desc (events : List EventRec) :
    (get_all_events events).Perm events
    ∧ (get_all_events events).Pairwise (fun a b => b.event_date ≤ a.event_date)
    ∧ get_all_events
        [⟨1, "Exam", "2024-10-02", "", "t"⟩, ⟨2, "Trip", "2024-9-01", "", "t"⟩] =
      [⟨2, "Trip", "2024-9-01", "", "t"⟩, ⟨1, "Exam", "2024-10-02", "", "t"⟩] := by
  have hlt : ("2024-10-02" : String) < "2024-9-01" := by
    rw [String.lt_iff_toList_lt]
    decide
  refine ⟨?_, ?_, by simp [get_all_events, pySortedDesc, insertDesc, hlt]⟩
  · have h := foldl_insertDesc_perm events []
    simpa [get_all_events, pySortedDesc] using h
  · have h := foldl_insertDesc_pairwise events [] (List.Pairwise.nil)
    simpa [get_all_events, pySortedDesc] using h

end ClassSchedule
